import Mathlib

/-!
Shallow embedding of the validation rule engine of the churn data pipeline
(`src/validation/data_validation.py` and its orchestrator `main.py`).

The repository's validation stage builds a fixed expectation suite over the
loaded dataframe and evaluates it.  The suite construction, the result
aggregation / failure reporting, and the error handlers are repository code
and are embedded from the source.  The per-expectation evaluation semantics
(inclusive numeric bounds, null handling, per-rule error capture) live in the
external expectation-engine library and are modelled from the spec where
indicated.
-/

/-- A cell of the tabular dataset: a missing value, a text value, or a
numeric value (numerics are modelled as rationals). -/
inductive CellValue : Type
  | null : CellValue
  | str : String → CellValue
  | num : ℚ → CellValue
deriving DecidableEq, Repr

/-- `true` exactly on the missing value. -/
def CellValue.isNull : CellValue → Bool
  | CellValue.null => true
  | _ => false

/-- Numeric value of a list of decimal digit characters. -/
def digitsToNat (cs : List Char) : Nat :=
  cs.foldl (fun a c => 10 * a + (c.toNat - ('0').toNat)) 0

/-- Modelled from the spec: the raw-to-numeric coercion applied to known
columns before validation (`pd.to_numeric(..., errors="coerce")`, invoked at
`data_validation.py` line 21; the parsing itself is library code).  Parses an
optional sign, an integer part and an optional decimal fraction; any other
shape is not a number. -/
def parseDecimal (s : String) : Option ℚ :=
  let cs := s.data
  let signed : Bool × List Char :=
    match cs with
    | '-' :: t => (true, t)
    | '+' :: t => (false, t)
    | _ => (false, cs)
  let body := signed.2
  let intPart := body.takeWhile Char.isDigit
  let rest := body.dropWhile Char.isDigit
  let mag : Option ℚ :=
    match rest with
    | [] =>
        if intPart.isEmpty then none
        else some (digitsToNat intPart : ℚ)
    | '.' :: frac =>
        if frac.all Char.isDigit ∧ ¬ (intPart.isEmpty ∧ frac.isEmpty) then
          some ((digitsToNat intPart : ℚ) +
            (digitsToNat frac : ℚ) / ((10 : ℚ) ^ frac.length))
        else none
    | _ => none
  mag.map (fun q => if signed.1 then -q else q)

/-- Numeric reading of a cell.  The spec's type checks are coercion-aware:
a textual-but-numeric value still counts as numeric. -/
def numVal : CellValue → Option ℚ
  | CellValue.null => none
  | CellValue.str s => parseDecimal s
  | CellValue.num q => some q

/-- One cell of `pd.to_numeric(column, errors="coerce")`
(`data_validation.py` line 21): numerics kept, parseable text coerced to its
number, everything else replaced by the missing value. -/
def toNumericCell : CellValue → CellValue
  | CellValue.null => CellValue.null
  | CellValue.str s =>
      match parseDecimal s with
      | some q => CellValue.num q
      | none => CellValue.null
  | CellValue.num q => CellValue.num q

/-- Modelled from the spec: the `ValidationTarget` seam (§4.3) over the
in-memory dataframe — an ordered list of named columns of cells. -/
structure Table : Type where
  cols : List (String × List CellValue)
deriving DecidableEq, Repr

/-- Number of columns of the target. -/
def Table.columnCount (t : Table) : Nat := t.cols.length

/-- Number of rows of the target (length of the first column; a dataframe
has all columns of equal length). -/
def Table.rowCount (t : Table) : Nat :=
  match t.cols with
  | [] => 0
  | c :: _ => c.2.length

/-- The cells of the named column, if the column exists. -/
def Table.values (t : Table) (c : String) : Option (List CellValue) :=
  (t.cols.find? (fun p => p.1 = c)).map (fun p => p.2)

/-- Whether the named column exists in the target schema. -/
def Table.hasColumn (t : Table) (c : String) : Bool :=
  (t.cols.find? (fun p => p.1 = c)).isSome

/-- `df["TotalCharges"] = pd.to_numeric(df["TotalCharges"], errors="coerce")`
(`data_validation.py` line 21): every cell of the `TotalCharges` column is
coerced; all other columns are untouched. -/
def coerceTotalCharges (t : Table) : Table :=
  Table.mk (t.cols.map (fun p =>
    if p.1 = "TotalCharges" then (p.1, p.2.map toNumericCell) else p))

/-- Replace cell `i` of the `TotalCharges` column (used to speak about a
single raw entry of the input). -/
def setTotalCharges (t : Table) (i : Nat) (v : CellValue) : Table :=
  Table.mk (t.cols.map (fun p =>
    if p.1 = "TotalCharges" then (p.1, p.2.set i v) else p))

/-- Type tag of a column-type expectation; the source only uses `"float"`
(`data_validation.py` line 185). -/
inductive TypeTag : Type
  | float : TypeTag
deriving DecidableEq, Repr

/-- The rule variants the suite of `data_validation.py` uses, one per
expectation kind added through the validator (lines 69-192). -/
inductive Rule : Type
  | rowCountBetween : Nat → Nat → Rule
  | columnCountEqual : Nat → Rule
  | columnExists : String → Rule
  | columnNotNull : String → Rule
  | valuesInSet : String → List CellValue → Rule
  | valuesBetween : String → ℚ → ℚ → Rule
  | valuesOfType : String → TypeTag → Rule
  | valuesUnique : String → Rule
deriving DecidableEq, Repr

/-- The outcome of one materialized check (spec §3): the rule it came from,
the verdict, element/unexpected counts, the observed value of table-level
checks, and whether the rule could not be checked at all (the spec's
`EvaluationError` detail). -/
structure CheckResult : Type where
  rule : Rule
  success : Bool
  elementCount : Nat
  unexpectedCount : Nat
  observed : Option Nat
  evalError : Bool
deriving DecidableEq, Repr

/-- Modelled from the spec (§4.4/§7): a rule whose referenced column is
absent cannot be checked; the engine converts the raised error into a
failing result tagged with an `EvaluationError` detail instead of aborting. -/
def evalErrorResult (r : Rule) : CheckResult :=
  CheckResult.mk r false 0 0 none true

/-- Whether a non-null cell lies in the inclusive numeric range. -/
def inRange (lo hi : ℚ) (v : CellValue) : Bool :=
  match numVal v with
  | some q => decide (lo ≤ q ∧ q ≤ hi)
  | none => false

/-- Whether a non-null cell satisfies the coercion-aware type tag. -/
def hasTypeTag (ty : TypeTag) (v : CellValue) : Bool :=
  match ty with
  | TypeTag.float => (numVal v).isSome

/-- Modelled from the spec: evaluation of one materialized check against the
target by the expectation engine (§4.4, §8).  Range checks are inclusive on
both bounds; null values are excluded from range, value-set, type and
uniqueness checks but always counted by `ColumnNotNull`; a referenced column
that is absent yields a failing `EvaluationError` result rather than an
exception. -/
def evalRule (t : Table) (r : Rule) : CheckResult :=
  match r with
  | Rule.rowCountBetween lo hi =>
      let n := t.rowCount
      CheckResult.mk r (decide (lo ≤ n ∧ n ≤ hi)) n 0 (some n) false
  | Rule.columnCountEqual m =>
      let n := t.columnCount
      CheckResult.mk r (decide (n = m)) n 0 (some n) false
  | Rule.columnExists c =>
      CheckResult.mk r (t.hasColumn c) 0 0 none false
  | Rule.columnNotNull c =>
      match t.values c with
      | none => evalErrorResult r
      | some vs =>
          let u := vs.countP CellValue.isNull
          CheckResult.mk r (decide (u = 0)) vs.length u none false
  | Rule.valuesInSet c allowed =>
      match t.values c with
      | none => evalErrorResult r
      | some vs =>
          let nn := vs.filter (fun v => ! v.isNull)
          let u := nn.countP (fun v => ! allowed.contains v)
          CheckResult.mk r (decide (u = 0)) nn.length u none false
  | Rule.valuesBetween c lo hi =>
      match t.values c with
      | none => evalErrorResult r
      | some vs =>
          let nn := vs.filter (fun v => ! v.isNull)
          let u := nn.countP (fun v => ! inRange lo hi v)
          CheckResult.mk r (decide (u = 0)) nn.length u none false
  | Rule.valuesOfType c ty =>
      match t.values c with
      | none => evalErrorResult r
      | some vs =>
          let nn := vs.filter (fun v => ! v.isNull)
          let u := nn.countP (fun v => ! hasTypeTag ty v)
          CheckResult.mk r (decide (u = 0)) nn.length u none false
  | Rule.valuesUnique c =>
      match t.values c with
      | none => evalErrorResult r
      | some vs =>
          let nn := vs.filter (fun v => ! v.isNull)
          let u := nn.countP (fun v => decide (1 < nn.count v))
          CheckResult.mk r (decide (u = 0)) nn.length u none false

/-- Modelled from the spec: the evaluator runs every materialized check in
order against the target, never short-circuiting (§4.4). -/
def evaluate (rules : List Rule) (t : Table) : List CheckResult :=
  rules.map (evalRule t)

/-- The 21 required columns (`data_validation.py` lines 77-84). -/
def requiredColumns : List String :=
  ["customerID", "gender", "SeniorCitizen", "Partner", "Dependents",
   "tenure", "PhoneService", "MultipleLines", "InternetService",
   "OnlineSecurity", "OnlineBackup", "DeviceProtection", "TechSupport",
   "StreamingTV", "StreamingMovies", "Contract",
   "PaperlessBilling", "PaymentMethod",
   "MonthlyCharges", "TotalCharges", "Churn"]

/-- The 20 not-null columns — every required column except `TotalCharges`,
which may hold coerced missing values (`data_validation.py` lines 91-97). -/
def notNullColumns : List String :=
  ["customerID", "gender", "SeniorCitizen", "Partner", "Dependents",
   "tenure", "PhoneService", "MultipleLines", "InternetService",
   "OnlineSecurity", "OnlineBackup", "DeviceProtection", "TechSupport",
   "StreamingTV", "StreamingMovies", "Contract",
   "PaperlessBilling", "PaymentMethod", "MonthlyCharges", "Churn"]

/-- The value-set expectations, in the order the validator adds them
(`data_validation.py` lines 103-174). -/
def valueSetRules : List Rule :=
  [Rule.valuesInSet "gender" [CellValue.str "Male", CellValue.str "Female"],
   Rule.valuesInSet "SeniorCitizen" [CellValue.num 0, CellValue.num 1],
   Rule.valuesInSet "Partner" [CellValue.str "Yes", CellValue.str "No"],
   Rule.valuesInSet "Dependents" [CellValue.str "Yes", CellValue.str "No"],
   Rule.valuesInSet "PhoneService" [CellValue.str "Yes", CellValue.str "No"],
   Rule.valuesInSet "MultipleLines"
     [CellValue.str "Yes", CellValue.str "No", CellValue.str "No phone service"],
   Rule.valuesInSet "InternetService"
     [CellValue.str "DSL", CellValue.str "Fiber optic", CellValue.str "No"],
   Rule.valuesInSet "OnlineSecurity"
     [CellValue.str "Yes", CellValue.str "No", CellValue.str "No internet service"],
   Rule.valuesInSet "OnlineBackup"
     [CellValue.str "Yes", CellValue.str "No", CellValue.str "No internet service"],
   Rule.valuesInSet "DeviceProtection"
     [CellValue.str "Yes", CellValue.str "No", CellValue.str "No internet service"],
   Rule.valuesInSet "TechSupport"
     [CellValue.str "Yes", CellValue.str "No", CellValue.str "No internet service"],
   Rule.valuesInSet "StreamingTV"
     [CellValue.str "Yes", CellValue.str "No", CellValue.str "No internet service"],
   Rule.valuesInSet "StreamingMovies"
     [CellValue.str "Yes", CellValue.str "No", CellValue.str "No internet service"],
   Rule.valuesInSet "Contract"
     [CellValue.str "Month-to-month", CellValue.str "One year", CellValue.str "Two year"],
   Rule.valuesInSet "PaperlessBilling" [CellValue.str "Yes", CellValue.str "No"],
   Rule.valuesInSet "PaymentMethod"
     [CellValue.str "Electronic check", CellValue.str "Mailed check",
      CellValue.str "Bank transfer (automatic)", CellValue.str "Credit card (automatic)"],
   Rule.valuesInSet "Churn" [CellValue.str "Yes", CellValue.str "No"]]

/-- The full expectation suite of `data_validation.py`, in the order the
expectations are added to the validator (lines 69-192): the two table-level
bounds, the 21 existence checks, the 20 not-null checks, the 17 value-set
checks, the numeric-range / type / uniqueness checks. -/
def churnRules : List Rule :=
  [Rule.rowCountBetween 1000 10000, Rule.columnCountEqual 21]
    ++ requiredColumns.map Rule.columnExists
    ++ notNullColumns.map Rule.columnNotNull
    ++ valueSetRules
    ++ [Rule.valuesBetween "tenure" 0 72,
        Rule.valuesBetween "MonthlyCharges" 0 200,
        Rule.valuesOfType "TotalCharges" TypeTag.float,
        Rule.valuesBetween "TotalCharges" 0 10000,
        Rule.valuesUnique "customerID"]

/-- The reporting limit of the failure log: `failed_expectations[:10]`
(`data_validation.py` lines 226 and 237). -/
def reportLimit : Nat := 10

/-- The aggregated outcome of one run (spec §3): verdict, counts, success
rate, the itemized failures up to the reporting limit, and the truncation
flag. -/
structure ValidationReport : Type where
  overallSuccess : Bool
  totalChecks : Nat
  successfulChecks : Nat
  successRate : Option ℚ
  failures : List CheckResult
  truncated : Bool
deriving DecidableEq, Repr

/-- The result aggregation of `data_validation.py` lines 203-240: the
overall verdict is the conjunction of the per-check verdicts; `total` is the
number of results and `successful` counts the successes (lines 209-210); the
success rate is their quotient (line 214 — Python would raise
`ZeroDivisionError` on an empty result list, modelled as `none`); the
failure list keeps the failing results in evaluation order cut at the
reporting limit (line 226), with the truncated flag set when more failures
exist (line 237). -/
def aggregate (results : List CheckResult) : ValidationReport :=
  let failed := results.filter (fun r => ! r.success)
  let successful := (results.filter (fun r => r.success)).length
  ValidationReport.mk
    (results.all (fun r => r.success))
    results.length
    successful
    (if results.length = 0 then none
     else some ((successful : ℚ) / (results.length : ℚ)))
    (failed.take reportLimit)
    (decide (reportLimit < failed.length))

/-- The validation run of `data_validation` on a loaded dataframe
(`data_validation.py` lines 19-240): coerce `TotalCharges` to numeric,
evaluate the fixed suite, aggregate the results. -/
def runValidation (df : Table) : ValidationReport :=
  aggregate (evaluate churnRules (coerceTotalCharges df))

/-- The suite name built at `data_validation.py` line 47 from the wall
clock. -/
def suiteName (timestamp : String) : String :=
  "churn_validation_suite_" ++ timestamp

/-- What one invocation of `data_validation` produces internally: the
timestamped suite name and the report derived from the dataframe. -/
structure RunArtifacts : Type where
  suite : String
  report : ValidationReport
deriving DecidableEq, Repr

/-- One invocation of `data_validation` at a given wall-clock timestamp on a
given loaded dataframe (`data_validation.py` lines 19-240). -/
def dataValidationRun (timestamp : String) (df : Table) : RunArtifacts :=
  RunArtifacts.mk (suiteName timestamp) (runValidation df)

/-- How loading the data file can fail (`data_validation.py` lines 242-247):
the file is missing (`FileNotFoundError`) or empty
(`pd.errors.EmptyDataError`) — the spec's `TargetAccessError`. -/
inductive LoadError : Type
  | fileNotFound : LoadError
  | emptyData : LoadError
deriving DecidableEq, Repr

/-- The `data_validation` entry point (`data_validation.py` lines 14-250) as
a function of the outcome of reading the data file.  A load error is caught
by the handlers at lines 242-247, logged, and turned into the ordinary
`False` verdict; on a loaded dataframe the function returns the overall
verdict of the run.  `Except.error` in the result would mean an exception
escaping to the caller — the source never produces one on this path. -/
def data_validation (load : Except LoadError Table) : Except LoadError Bool :=
  match load with
  | Except.error _ => Except.ok false
  | Except.ok df => Except.ok (runValidation df).overallSuccess

/-- The pipeline stages `main.py` orchestrates. -/
inductive Stage : Type
  | ingestion : Stage
  | validation : Stage
  | cleaning : Stage
  | splitting : Stage
deriving DecidableEq, Repr

/-- What one run of the orchestrator produces: the stages it executed, in
order, and the process exit code. -/
structure MainOutcome : Type where
  executed : List Stage
  exitCode : Nat
deriving DecidableEq, Repr

/-- The orchestrator `main.py` lines 24-52 as a function of the boolean the
validation stage returns, on the path where no stage raises: ingestion and
validation always run; when the verdict is false, `main` logs and returns —
cleaning and splitting never run, and the process ends normally with exit
code 0 (`sys.exit(1)` is reached only from the exception handler at lines
50-52). -/
def mainPipeline (isValid : Bool) : MainOutcome :=
  if isValid then
    MainOutcome.mk
      [Stage.ingestion, Stage.validation, Stage.cleaning, Stage.splitting] 0
  else
    MainOutcome.mk [Stage.ingestion, Stage.validation] 0

/-! ## Supporting lemmas -/

theorem evalRule_rule (t : Table) (r : Rule) : (evalRule t r).rule = r := by
  cases r with
  | rowCountBetween lo hi => rfl
  | columnCountEqual m => rfl
  | columnExists c => rfl
  | columnNotNull c => cases h : t.values c <;> simp [evalRule, h, evalErrorResult]
  | valuesInSet c allowed => cases h : t.values c <;> simp [evalRule, h, evalErrorResult]
  | valuesBetween c lo hi => cases h : t.values c <;> simp [evalRule, h, evalErrorResult]
  | valuesOfType c ty => cases h : t.values c <;> simp [evalRule, h, evalErrorResult]
  | valuesUnique c => cases h : t.values c <;> simp [evalRule, h, evalErrorResult]

theorem values_eq_none_of_not_hasColumn (t : Table) (c : String)
    (h : t.hasColumn c = false) : t.values c = none := by
  unfold Table.hasColumn at h
  unfold Table.values
  cases hf : t.cols.find? (fun p => p.1 = c) with
  | none => rfl
  | some p => rw [hf] at h; simp at h

/-! ## Claims -/

/-- C1: if evaluating one rule raises an error (a referenced column is
absent), the error becomes a failing `CheckResult` carrying the
`EvaluationError` detail, every remaining rule is still evaluated and
included in the results, and the run completes with one result per rule. -/
theorem evaluationError_isolated (rules : List Rule) (t : Table) (c : String) (i : Nat)
    (h1 : rules[i]? = some (Rule.columnNotNull c))
    (h2 : t.hasColumn c = false) :
    (evaluate rules t).length = rules.length ∧
    (∀ j : Nat, (evaluate rules t)[j]? = rules[j]?.map (evalRule t)) ∧
    (evaluate rules t)[i]? =
      some (CheckResult.mk (Rule.columnNotNull c) false 0 0 none true) := by
  refine ⟨List.length_map _ _, fun j => List.getElem?_map _ _ _, ?_⟩
  rw [evaluate, List.getElem?_map, h1]
  simp [evalRule, values_eq_none_of_not_hasColumn t c h2, evalErrorResult]

/-- Witness for C1: a two-rule suite against a target lacking the `tenure`
column still yields both results, the second failing with the
`EvaluationError` detail. -/
theorem evaluationError_isolated_witness :
    (evaluate [Rule.columnExists "gender", Rule.columnNotNull "tenure"]
        (Table.mk [("gender", [CellValue.str "Male"])])).length = 2 ∧
    (evaluate [Rule.columnExists "gender", Rule.columnNotNull "tenure"]
        (Table.mk [("gender", [CellValue.str "Male"])]))[1]? =
      some (CheckResult.mk (Rule.columnNotNull "tenure") false 0 0 none true) := by
  have h := evaluationError_isolated
    [Rule.columnExists "gender", Rule.columnNotNull "tenure"]
    (Table.mk [("gender", [CellValue.str "Male"])]) "tenure" 1
    (by decide) (by decide)
  exact ⟨h.1, h.2.2⟩

/-- A failing check used to probe the aggregation (an existence check of a
column the probe target lacks). -/
def failingProbe : CheckResult :=
  CheckResult.mk (Rule.columnExists "probe") false 0 0 none false

/-- C2: the report's failure list is the failing results truncated to the
reporting limit of 10 and the truncated flag is set exactly when more
failures exist than the limit; in particular 15 failing checks give 10
listed failures with the flag set, and 5 failing checks give 5 listed
failures with the flag clear. -/
theorem report_truncation :
    (∀ results : List CheckResult,
        (aggregate results).failures =
          (results.filter (fun r => ! r.success)).take reportLimit ∧
        (aggregate results).failures.length =
          min (results.filter (fun r => ! r.success)).length reportLimit ∧
        (aggregate results).truncated =
          decide (reportLimit < (results.filter (fun r => ! r.success)).length)) ∧
    reportLimit = 10 ∧
    (aggregate (List.replicate 15 failingProbe)).failures.length = 10 ∧
    (aggregate (List.replicate 15 failingProbe)).truncated = true ∧
    (aggregate (List.replicate 5 failingProbe)).failures.length = 5 ∧
    (aggregate (List.replicate 5 failingProbe)).truncated = false := by
  refine ⟨fun results => ⟨rfl, ?_, rfl⟩, rfl, by decide, by decide, by decide, by decide⟩
  simp [aggregate, List.length_take, Nat.min_comm]

/-- C3: every report's `totalChecks` equals `successfulChecks` plus the
number of failing results before truncation — every check counted exactly
once. -/
theorem count_conservation (results : List CheckResult) :
    (aggregate results).totalChecks =
      (aggregate results).successfulChecks +
        (results.filter (fun r => ! r.success)).length := by
  simpa [aggregate] using results.length_eq_length_filter_add (fun r => r.success)

/-- C4: every report the validation run produces has `totalChecks = 65 > 0`
(the fixed suite size), so the success rate is always defined and equals
`successfulChecks / totalChecks`; the zero-check division never happens. -/
theorem rate_defined (df : Table) :
    0 < (runValidation df).totalChecks ∧
    (runValidation df).successRate =
      some (((runValidation df).successfulChecks : ℚ) /
        ((runValidation df).totalChecks : ℚ)) := by
  have hlen : (evaluate churnRules (coerceTotalCharges df)).length = 65 := by
    rw [evaluate, List.length_map]
    rfl
  constructor
  · show 0 < (aggregate (evaluate churnRules (coerceTotalCharges df))).totalChecks
    simp [aggregate, hlen]
  · simp [runValidation, aggregate, hlen]

/-- The boundary probe of the spec: a `tenure` column holding
`[-1, 0, 72, 73]`. -/
def tenureProbe : Table :=
  Table.mk [("tenure",
    [CellValue.num (-1), CellValue.num 0, CellValue.num 72, CellValue.num 73])]

/-- C5: numeric range checks are inclusive on both bounds: with
`min = 0, max = 72` over `[-1, 0, 72, 73]` exactly the two values `-1` and
`73` are unexpected (`0` and `72` both pass), so the check reports
`unexpectedCount = 2` and fails. -/
theorem range_inclusive :
    (∀ lo hi q : ℚ, inRange lo hi (CellValue.num q) = decide (lo ≤ q ∧ q ≤ hi)) ∧
    (evalRule tenureProbe (Rule.valuesBetween "tenure" 0 72)).unexpectedCount = 2 ∧
    (evalRule tenureProbe (Rule.valuesBetween "tenure" 0 72)).success = false ∧
    inRange 0 72 (CellValue.num 0) = true ∧
    inRange 0 72 (CellValue.num 72) = true ∧
    inRange 0 72 (CellValue.num (-1)) = false ∧
    inRange 0 72 (CellValue.num 73) = false := by
  exact ⟨fun lo hi q => rfl, by decide, by decide, by decide, by decide,
    by decide, by decide⟩

/-- C6: results come back in exactly the order the rules were added — the
i-th result is the evaluation of the i-th rule — and the report's failure
list is the failing results in that same encounter order cut at the limit
(a sublist of the results, never reordered). -/
theorem evaluation_order (rules : List Rule) (t : Table) :
    (evaluate rules t).map CheckResult.rule = rules ∧
    (aggregate (evaluate rules t)).failures =
      ((evaluate rules t).filter (fun r => ! r.success)).take reportLimit ∧
    ((aggregate (evaluate rules t)).failures).Sublist (evaluate rules t) := by
  refine ⟨?_, rfl, ?_⟩
  · rw [evaluate, List.map_map]
    have h : ∀ r ∈ rules, (CheckResult.rule ∘ evalRule t) r = id r :=
      fun r _ => evalRule_rule t r
    rw [List.map_congr_left h, List.map_id]
  · exact ((List.take_sublist _ _).trans (List.filter_sublist _))

/-- C7 counterexample: on a missing data file the entry point returns the
ordinary failure verdict `false` to its caller instead of letting the error
escape — the error is not propagated. -/
theorem load_error_swallowed :
    data_validation (Except.error LoadError.fileNotFound) = Except.ok false ∧
    data_validation (Except.error LoadError.emptyData) = Except.ok false := ⟨rfl, rfl⟩

/-- C7 amended: when the underlying data source is unreadable or
unavailable, the entry point catches the error (handlers at
`data_validation.py` lines 242-247), logs it, and returns the ordinary
failure verdict `false`; no error reaches the caller. -/
theorem load_error_returns_false (e : LoadError) :
    data_validation (Except.error e) = Except.ok false := by
  cases e <;> rfl

/-- C8 counterexample: after a failed validation the orchestrator's process
exit code is 0, the success signal — not the failure signal 1 that
propagating the boolean verdict would require. -/
theorem failed_validation_exit_code :
    (mainPipeline false).exitCode = 0 ∧ (mainPipeline false).exitCode ≠ 1 := by
  decide

/-- C8 amended: when validation returns `false` the orchestrator executes no
downstream stage — cleaning and splitting never run (and `main.py` has no
training stage at all) — but the boolean verdict is only logged: `main`
returns normally and the process exits with code 0 either way, so the
verdict is not propagated as the process's success/failure signal. -/
theorem halt_on_failed_validation :
    (mainPipeline false).executed = [Stage.ingestion, Stage.validation] ∧
    Stage.cleaning ∉ (mainPipeline false).executed ∧
    Stage.splitting ∉ (mainPipeline false).executed ∧
    (mainPipeline false).exitCode = 0 ∧
    (mainPipeline true).exitCode = 0 := by
  refine ⟨rfl, by decide, by decide, rfl, rfl⟩

/-- C9: validation is deterministic — the report depends only on the suite
and the target, not on the wall clock that names the suite, so two runs at
different timestamps over the same immutable target produce identical
reports (same verdict, same counts, same failures in the same order). -/
theorem report_deterministic (ts1 ts2 : String) (df : Table) :
    (dataValidationRun ts1 df).report = (dataValidationRun ts2 df).report := rfl

theorem coerce_set_eq (df : Table) (i : Nat) (s : String)
    (h : parseDecimal s = none) :
    coerceTotalCharges (setTotalCharges df i (CellValue.str s)) =
      coerceTotalCharges (setTotalCharges df i CellValue.null) := by
  unfold coerceTotalCharges setTotalCharges
  congr 1
  rw [List.map_map, List.map_map]
  apply List.map_congr_left
  intro p _
  by_cases hp : p.1 = "TotalCharges"
  · simp [Function.comp, hp, List.map_set, toNumericCell, h]
  · simp [Function.comp, hp]

/-- C10: before any rule runs, a `TotalCharges` value that does not parse as
a number is coerced to the missing value, so the whole run behaves exactly
as if that entry were missing; `TotalCharges` is excluded from the not-null
rule set, and the range and type checks skip missing values — such an entry
therefore never surfaces as a range, type, or null violation, and the run's
verdict is whatever it would be with the entry absent. -/
theorem nonnumeric_totalcharges_invisible (df : Table) (i : Nat) (s : String)
    (h : parseDecimal s = none) :
    toNumericCell (CellValue.str s) = CellValue.null ∧
    runValidation (setTotalCharges df i (CellValue.str s)) =
      runValidation (setTotalCharges df i CellValue.null) ∧
    "TotalCharges" ∉ notNullColumns ∧
    Rule.columnNotNull "TotalCharges" ∉ churnRules ∧
    (∀ (name : String) (vs : List CellValue) (lo hi : ℚ),
        evalRule (Table.mk [(name, CellValue.null :: vs)])
            (Rule.valuesBetween name lo hi) =
          evalRule (Table.mk [(name, vs)]) (Rule.valuesBetween name lo hi)) ∧
    (∀ (name : String) (vs : List CellValue) (ty : TypeTag),
        evalRule (Table.mk [(name, CellValue.null :: vs)])
            (Rule.valuesOfType name ty) =
          evalRule (Table.mk [(name, vs)]) (Rule.valuesOfType name ty)) := by
  refine ⟨by simp [toNumericCell, h], ?_, by decide, by decide, ?_, ?_⟩
  · simp only [runValidation, coerce_set_eq df i s h]
  · intro name vs lo hi
    simp [evalRule, Table.values, List.find?, CellValue.isNull]
  · intro name vs ty
    simp [evalRule, Table.values, List.find?, CellValue.isNull]

/-- Witness for C10 at a concrete input: the raw entry `"abc"` does not
parse, and the run on the table holding it is identical to the run on the
table holding a missing value instead. -/
theorem nonnumeric_totalcharges_invisible_witness :
    parseDecimal "abc" = none ∧
    runValidation (setTotalCharges (Table.mk [("TotalCharges",
        [CellValue.str "old"])]) 0 (CellValue.str "abc")) =
      runValidation (setTotalCharges (Table.mk [("TotalCharges",
        [CellValue.str "old"])]) 0 CellValue.null) :=
  ⟨by decide,
    (nonnumeric_totalcharges_invisible (Table.mk [("TotalCharges",
      [CellValue.str "old"])]) 0 "abc" (by decide)).2.1⟩
